import Mathlib

/-
Verification of the gps-modulator repository's detection-and-fallback core.

Python floats are modelled as real numbers; Python dicts carrying fixed,
well-formed records are modelled as structures (the spec requires records to
be normalized to one canonical key spelling at the ingestion boundary, so the
`.get('latitude', .get('lat', 0.0))` aliasing reduces to plain field access).
Python operations that can raise are modelled in `Except String`; an uncaught
exception is an `Except.error` result.

Namespace `Flat` embeds the top-level package `src/gps_modulator`
(detectors/velocity_anomaly.py, utils/gps_math.py, fallback/dead_reckoner.py,
fallback/fallback_manager.py, core/detection_pipeline.py,
core/geosignal_validation_engine.py).  Namespace `Core` embeds the package
`src/src/gps_modulator` (utils/gps_math.py, detectors/velocity_anomaly_detector.py,
correction/dead_reckoner.py, correction/imu_handler.py,
correction/path_corrector.py).
-/

noncomputable section

/-- Python `math.radians`. -/
def radians (x : ℝ) : ℝ := x * (Real.pi / 180)

/-- Python `math.degrees`. -/
def degrees (x : ℝ) : ℝ := x * (180 / Real.pi)

/-- Python `math.atan2 y x` (C library convention, `atan2 0 0 = 0`). -/
def atan2 (y x : ℝ) : ℝ :=
  if 0 < x then Real.arctan (y / x)
  else if x < 0 then
    (if 0 ≤ y then Real.arctan (y / x) + Real.pi else Real.arctan (y / x) - Real.pi)
  else
    (if 0 < y then Real.pi / 2 else if y < 0 then -(Real.pi / 2) else 0)

/-- Python's `%` on floats with a positive modulus: `x - m * floor (x / m)`. -/
def pyMod (x m : ℝ) : ℝ := x - m * ⌊x / m⌋

/-- A GNSS fix in the canonical record shape: `latitude`, `longitude`
(decimal degrees) and `timestamp` (seconds). -/
structure GpsPoint where
  latitude : ℝ
  longitude : ℝ
  timestamp : ℝ

/-- A latitude/longitude pair, as returned by the dead reckoners. -/
structure Position where
  latitude : ℝ
  longitude : ℝ

namespace Flat

/-- `EARTH_RADIUS` from `gps_modulator/utils/gps_math.py`. -/
def EARTH_RADIUS : ℝ := 6371000

/-- `haversine` from `gps_modulator/utils/gps_math.py`. -/
def haversine (lat1 lon1 lat2 lon2 : ℝ) : ℝ :=
  let phi_1 := radians lat1
  let phi_2 := radians lat2
  let delta_phi := radians (lat2 - lat1)
  let delta_lambda := radians (lon2 - lon1)
  let a := Real.sin (delta_phi / 2) ^ 2 +
      Real.cos phi_1 * Real.cos phi_2 * Real.sin (delta_lambda / 2) ^ 2
  let c := 2 * atan2 (Real.sqrt a) (Real.sqrt (1 - a))
  EARTH_RADIUS * c

/-- `compute_velocity` from `gps_modulator/utils/gps_math.py`: returns 0 when
the previous point is `None` or the elapsed time is non-positive, otherwise
haversine distance over elapsed time. -/
def compute_velocity (previous_point : Option GpsPoint) (present_point : GpsPoint) : ℝ :=
  match previous_point with
  | none => 0
  | some prev =>
    let time_interval := present_point.timestamp - prev.timestamp
    if time_interval ≤ 0 then 0
    else
      haversine prev.latitude prev.longitude present_point.latitude present_point.longitude /
        time_interval

/-- State of `VelocityAnomalyDetector` from `gps_modulator/detectors/velocity_anomaly.py`. -/
structure VelocityAnomalyDetector where
  threshold_velocity : ℝ
  previous_point : Option GpsPoint

/-- `VelocityAnomalyDetector.detect`: first call stores the fix and returns
`False`; later calls compare the velocity against the threshold and store the
current fix unconditionally. -/
def VelocityAnomalyDetector.detect (d : VelocityAnomalyDetector) (present_point : GpsPoint) :
    Bool × VelocityAnomalyDetector :=
  match d.previous_point with
  | none => (false, { d with previous_point := some present_point })
  | some prev =>
    let velocity := compute_velocity (some prev) present_point
    let d' := { d with previous_point := some present_point }
    (if velocity > d.threshold_velocity then true else false, d')

/-- State of `DetectionPipeline` from `gps_modulator/core/detection_pipeline.py`. -/
structure DetectionPipeline where
  velocity_anomaly_detector : VelocityAnomalyDetector

/-- The dict `{'velocity_anomaly': ..., 'point': ...}` returned by
`DetectionPipeline.process_gps_point`. -/
structure PipelineResult where
  velocity_anomaly : Bool
  point : GpsPoint

/-- `DetectionPipeline.process_gps_point`: runs the detector and wraps the
boolean verdict in a result dict. -/
def process_gps_point (p : DetectionPipeline) (present_point : GpsPoint) :
    PipelineResult × DetectionPipeline :=
  let r := p.velocity_anomaly_detector.detect present_point
  ({ velocity_anomaly := r.1, point := present_point },
   { velocity_anomaly_detector := r.2 })

/-- Python truthiness of the `process_gps_point` result: the returned dict
always holds the two entries `velocity_anomaly` and `point`, and a non-empty
dict is truthy, so this is `true` for every result. -/
def pipelineResultTruthy (_ : PipelineResult) : Bool := true

/-- IMU dict consumed by `gps_modulator/fallback`: `velocity` and
`acceleration` are optional dict entries, `heading` is read with `[...]` and is
assumed present for well-formed samples. -/
structure ImuMsg where
  velocity : Option ℝ
  acceleration : Option ℝ
  heading : ℝ

/-- State of `DeadReckoner` from `gps_modulator/fallback/dead_reckoner.py`. -/
structure DeadReckoner where
  position : Position
  velocity : ℝ

/-- `DeadReckoner.compute_next_position` (flat small-angle formula from
`gps_modulator/fallback/dead_reckoner.py`). -/
def DeadReckoner.compute_next_position (present_position : Position)
    (heading distance : ℝ) : Position :=
  let R : ℝ := 6371000
  let lat := present_position.latitude
  let lon := present_position.longitude
  let delta_lat := distance * Real.cos (radians heading) / R
  let delta_lon := distance * Real.sin (radians heading) / (R * Real.cos (radians lat))
  { latitude := lat + degrees delta_lat, longitude := lon + degrees delta_lon }

/-- `DeadReckoner.update` from `gps_modulator/fallback/dead_reckoner.py`. -/
def DeadReckoner.update (dr : DeadReckoner) (imu_data : ImuMsg) (delta_time : ℝ) :
    Position × DeadReckoner :=
  let v := match imu_data.acceleration with
    | some acceleration => dr.velocity + acceleration * delta_time
    | none => imu_data.velocity.getD dr.velocity
  let distance := v * delta_time
  let next := DeadReckoner.compute_next_position dr.position imu_data.heading distance
  (next, { position := next, velocity := v })

/-- State of `FallbackManager` from `gps_modulator/fallback/fallback_manager.py`. -/
structure FallbackManager where
  fallback_active : Bool
  last_position : Option Position
  reckoner : Option DeadReckoner

/-- `FallbackManager.handle_fallback`: when inactive, activates, anchors a new
`DeadReckoner` at the given position with the IMU velocity, runs one update and
returns the estimate; when already active the Python function body falls
through and returns `None` with no state change. -/
def handle_fallback (m : FallbackManager) (present_position : Position)
    (imu_data : ImuMsg) (delta_time : ℝ) : Option Position × FallbackManager :=
  if m.fallback_active then (none, m)
  else
    let initial_velocity := imu_data.velocity.getD 0
    let reckoner : DeadReckoner := { position := present_position, velocity := initial_velocity }
    let r := reckoner.update imu_data delta_time
    (some r.1,
     { fallback_active := true, last_position := some present_position,
       reckoner := some r.2 })

/-- State of `GeosignalValidationEngine` from
`gps_modulator/core/geosignal_validation_engine.py`. -/
structure EngineState where
  detection_pipeline : DetectionPipeline
  fallback_manager : FallbackManager
  last_gps_point : Option GpsPoint

/-- The dict returned by `GeosignalValidationEngine.validate`. -/
structure ValidationResult where
  latitude : ℝ
  longitude : ℝ
  is_spoofed : Bool
  source : String
  timestamp : ℝ

/-- `GeosignalValidationEngine.validate`.  Mirrors the source faithfully:
`is_spoofed` is bound to the *dict* returned by `process_gps_point` (whose
truthiness is modelled by `pipelineResultTruthy`); when the fallback manager
returns `None` (already active), the subscript `validated_position["latitude"]`
raises `TypeError`, modelled as an `Except.error`. -/
def validate (e : EngineState) (gps_data : GpsPoint) (imu_data : ImuMsg) :
    Except String (ValidationResult × EngineState) :=
  let pr := process_gps_point e.detection_pipeline gps_data
  let is_spoofed := pipelineResultTruthy pr.1
  if is_spoofed then
    let present_position : Position :=
      { latitude := gps_data.latitude, longitude := gps_data.longitude }
    let delta_time : ℝ := match e.last_gps_point with
      | some lp => gps_data.timestamp - lp.timestamp
      | none => 1
    let fb := handle_fallback e.fallback_manager present_position imu_data delta_time
    match fb.1 with
    | none => Except.error "TypeError: NoneType object is not subscriptable"
    | some validated_position =>
      Except.ok
        ({ latitude := validated_position.latitude,
           longitude := validated_position.longitude,
           is_spoofed := true, source := "fallback",
           timestamp := gps_data.timestamp },
         { e with detection_pipeline := pr.2, fallback_manager := fb.2 })
  else
    Except.ok
      ({ latitude := gps_data.latitude, longitude := gps_data.longitude,
         is_spoofed := false, source := "gps", timestamp := gps_data.timestamp },
       { detection_pipeline := pr.2, fallback_manager := e.fallback_manager,
         last_gps_point := some { latitude := gps_data.latitude,
                                  longitude := gps_data.longitude,
                                  timestamp := gps_data.timestamp } })

end Flat

/-- A 3-axis sensor reading or bias vector. -/
structure Vec3 where
  x : ℝ
  y : ℝ
  z : ℝ

namespace Core

/-- `EARTH_RADIUS` from `src/gps_modulator/utils/gps_math.py`. -/
def EARTH_RADIUS : ℝ := 6371000

/-- `haversine_distance` from `src/gps_modulator/utils/gps_math.py`. -/
def haversine_distance (lat1 lon1 lat2 lon2 : ℝ) : ℝ :=
  let phi_1 := radians lat1
  let phi_2 := radians lat2
  let delta_phi := radians (lat2 - lat1)
  let delta_lambda := radians (lon2 - lon1)
  let a := Real.sin (delta_phi / 2) ^ 2 +
      Real.cos phi_1 * Real.cos phi_2 * Real.sin (delta_lambda / 2) ^ 2
  let c := 2 * atan2 (Real.sqrt a) (Real.sqrt (1 - a))
  EARTH_RADIUS * c

/-- `compute_velocity` from `src/gps_modulator/utils/gps_math.py`; for numeric
timestamps `_parse_time_interval` reduces to the plain difference. -/
def compute_velocity (previous_point : Option GpsPoint) (current_point : GpsPoint) : ℝ :=
  match previous_point with
  | none => 0
  | some prev =>
    let time_interval := current_point.timestamp - prev.timestamp
    if time_interval ≤ 0 then 0
    else
      haversine_distance prev.latitude prev.longitude
        current_point.latitude current_point.longitude / time_interval

/-- State of `VelocityAnomalyDetector` from
`src/gps_modulator/detectors/velocity_anomaly_detector.py`. -/
structure VelocityAnomalyDetector where
  threshold_velocity : ℝ
  previous_point : Option GpsPoint

/-- `VelocityAnomalyDetector.detect` from
`src/gps_modulator/detectors/velocity_anomaly_detector.py`. -/
def VelocityAnomalyDetector.detect (d : VelocityAnomalyDetector) (current_point : GpsPoint) :
    Bool × VelocityAnomalyDetector :=
  match d.previous_point with
  | none => (false, { d with previous_point := some current_point })
  | some prev =>
    let velocity := compute_velocity (some prev) current_point
    let d' := { d with previous_point := some current_point }
    (if velocity > d.threshold_velocity then true else false, d')

/-- State of `DeadReckoner` from `src/gps_modulator/correction/dead_reckoner.py`. -/
structure DeadReckoner where
  current_position : Position
  current_velocity : ℝ

/-- Python `math.asin`: raises `ValueError: math domain error` outside
`[-1, 1]`, otherwise agrees with `Real.arcsin`. -/
def pyAsin (x : ℝ) : Except String ℝ :=
  if x < -1 ∨ 1 < x then Except.error "ValueError: math domain error"
  else Except.ok (Real.arcsin x)

/-- `DeadReckoner.compute_next_position` from
`src/gps_modulator/correction/dead_reckoner.py` (spherical direct formula with
the final `((new_lon + 180) % 360) - 180` normalization), with Python's
`math.asin` domain error modelled through `pyAsin`. -/
def compute_next_positionE (present_position : Position) (heading distance : ℝ) :
    Except String Position := do
  let lat_rad := radians present_position.latitude
  let lon_rad := radians present_position.longitude
  let heading_rad := radians heading
  let angular_distance := distance / EARTH_RADIUS
  let new_lat_rad ← pyAsin (Real.sin lat_rad * Real.cos angular_distance +
      Real.cos lat_rad * Real.sin angular_distance * Real.cos heading_rad)
  let new_lon_rad := lon_rad + atan2
      (Real.sin heading_rad * Real.sin angular_distance * Real.cos lat_rad)
      (Real.cos angular_distance - Real.sin lat_rad * Real.sin new_lat_rad)
  let new_lat := degrees new_lat_rad
  let new_lon := degrees new_lon_rad
  Except.ok { latitude := new_lat, longitude := pyMod (new_lon + 180) 360 - 180 }

/-- The dict argument of `DeadReckoner.update`: optional `acceleration` and
`speed` entries and a mandatory `heading` entry. -/
structure UpdateMsg where
  acceleration : Option ℝ
  speed : Option ℝ
  heading : ℝ

/-- `DeadReckoner.update` from `src/gps_modulator/correction/dead_reckoner.py`. -/
def updateE (dr : DeadReckoner) (imu_data : UpdateMsg) (delta_time : ℝ) :
    Except String (Position × DeadReckoner) := do
  let v := match imu_data.acceleration with
    | some acceleration => dr.current_velocity + acceleration * delta_time
    | none => imu_data.speed.getD dr.current_velocity
  let heading := imu_data.heading
  let distance := v * delta_time
  let next ← compute_next_positionE dr.current_position heading distance
  Except.ok (next, { current_position := next, current_velocity := v })

/-- The `IMUData` dataclass from `src/gps_modulator/correction/imu_handler.py`. -/
structure IMUData where
  acceleration_x : ℝ
  acceleration_y : ℝ
  acceleration_z : ℝ
  gyro_x : ℝ
  gyro_y : ℝ
  gyro_z : ℝ
  mag_x : ℝ
  mag_y : ℝ
  mag_z : ℝ
  heading : ℝ
  pitch : ℝ
  roll : ℝ
  timestamp : ℝ

/-- State of `EnhancedIMUHandler` from
`src/gps_modulator/correction/imu_handler.py` (`alpha = 0.8` and
`max_history = 10` at construction). -/
structure IMUHandler where
  previous_imu_data : Option IMUData
  magnetic_declination : ℝ
  accel_bias : Vec3
  gyro_bias : Vec3
  mag_bias : Vec3
  alpha : ℝ
  heading_history : List ℝ
  max_history : ℕ

/-- The raw IMU dict consumed by `EnhancedIMUHandler.process_imu_data`; every
sensor channel is read with `.get(key, 0.0)`, so absent channels coincide with
zero readings.  `heading` and `speed` are the entries the basic correction
path tests with `in`. -/
structure RawImu where
  accel_x : ℝ
  accel_y : ℝ
  accel_z : ℝ
  gyro_x : ℝ
  gyro_y : ℝ
  gyro_z : ℝ
  mag_x : ℝ
  mag_y : ℝ
  mag_z : ℝ
  timestamp : ℝ
  heading : Option ℝ
  speed : Option ℝ

/-- `EnhancedIMUHandler._calculate_attitude`: pitch and roll from the
normalized acceleration vector.  (For the degenerate zero vector numpy yields
nan without raising; real division by zero yields 0 here, a divergence that no
claim depends on.) -/
def calculate_attitude (accel : Vec3) : ℝ × ℝ :=
  let n := Real.sqrt (accel.x ^ 2 + accel.y ^ 2 + accel.z ^ 2)
  let ax := accel.x / n
  let ay := accel.y / n
  let az := accel.z / n
  let pitch := degrees (atan2 ax (Real.sqrt (ay ^ 2 + az ^ 2)))
  let roll := degrees (atan2 ay (Real.sqrt (ax ^ 2 + az ^ 2)))
  (pitch, roll)

/-- `EnhancedIMUHandler._calculate_heading`: tilt-compensated magnetometer
heading, shifted into `[0, 360]` and then reduced `% 360` after adding the
magnetic declination. -/
def calculate_heading (st : IMUHandler) (mag : Vec3) (pitch roll : ℝ) : ℝ :=
  let pitch_rad := radians pitch
  let roll_rad := radians roll
  let mag_x_c := mag.x * Real.cos pitch_rad + mag.z * Real.sin pitch_rad
  let mag_y_c := mag.x * Real.sin roll_rad * Real.sin pitch_rad +
      mag.y * Real.cos roll_rad - mag.z * Real.sin roll_rad * Real.cos pitch_rad
  let heading := degrees (atan2 mag_y_c mag_x_c)
  let heading := if heading < 0 then heading + 360 else heading
  pyMod (heading + st.magnetic_declination) 360

/-- `EnhancedIMUHandler.process_imu_data`: calibrate, compute attitude and
magnetometer heading, blend with the gyro-integrated heading when a previous
sample exists and `dt > 0`, smooth with the bounded history mean, and store the
result as the new previous sample. -/
def process_imu_data (st : IMUHandler) (raw : RawImu) : IMUData × IMUHandler :=
  let accel : Vec3 := ⟨raw.accel_x - st.accel_bias.x, raw.accel_y - st.accel_bias.y,
      raw.accel_z - st.accel_bias.z⟩
  let gyro : Vec3 := ⟨raw.gyro_x - st.gyro_bias.x, raw.gyro_y - st.gyro_bias.y,
      raw.gyro_z - st.gyro_bias.z⟩
  let mag : Vec3 := ⟨raw.mag_x - st.mag_bias.x, raw.mag_y - st.mag_bias.y,
      raw.mag_z - st.mag_bias.z⟩
  let pr := calculate_attitude accel
  let pitch := pr.1
  let roll := pr.2
  let heading0 := calculate_heading st mag pitch roll
  let heading1 := match st.previous_imu_data with
    | some prev =>
      let dt := raw.timestamp - prev.timestamp
      if 0 < dt then st.alpha * (prev.heading + gyro.z * dt) + (1 - st.alpha) * heading0
      else heading0
    | none => heading0
  let history0 := st.heading_history ++ [heading1]
  let history := if st.max_history < history0.length then history0.tail else history0
  let heading2 := if history.isEmpty then heading1 else history.sum / (history.length : ℝ)
  let d : IMUData :=
    { acceleration_x := accel.x, acceleration_y := accel.y, acceleration_z := accel.z,
      gyro_x := gyro.x, gyro_y := gyro.y, gyro_z := gyro.z,
      mag_x := mag.x, mag_y := mag.y, mag_z := mag.z,
      heading := heading2, pitch := pitch, roll := roll, timestamp := raw.timestamp }
  (d, { st with previous_imu_data := some d, heading_history := history })

/-- The dict returned by `EnhancedIMUHandler.get_motion_vector`. -/
structure MotionVector where
  heading : ℝ
  speed : ℝ
  acceleration : ℝ

/-- `EnhancedIMUHandler.get_motion_vector`: integrates horizontal acceleration
magnitude over `delta_time` when a previous processed sample exists. -/
def get_motion_vector (st : IMUHandler) (imu_data : IMUData) (delta_time : ℝ) : MotionVector :=
  let accel_horizontal := Real.sqrt (imu_data.acceleration_x ^ 2 + imu_data.acceleration_y ^ 2)
  let speed := match st.previous_imu_data with
    | some _ => accel_horizontal * delta_time
    | none => 0
  { heading := imu_data.heading, speed := speed, acceleration := accel_horizontal }

end Core

namespace Core

/-- State of `PathCorrector` from `src/gps_modulator/correction/path_corrector.py`.
(`imu_calibration_data` is only read by `reset`, which no claim touches, and is
omitted.) -/
structure PathCorrector where
  last_valid_position : Option GpsPoint
  dead_reckoner : Option DeadReckoner
  imu_handler : Option IMUHandler
  use_imu_correction : Bool

/-- A dict returned by `PathCorrector.correct` and its helpers: latitude,
longitude and timestamp always present, `confidence` and `correction_method`
present only on the spoofed-path records that set them. -/
structure CorrectedRecord where
  latitude : ℝ
  longitude : ℝ
  timestamp : ℝ
  confidence : Option ℝ
  correction_method : Option String

/-- Reading a field of `self.last_valid_position`: Python raises when the
attribute is still `None`. -/
def pyField (p : Option GpsPoint) : Except String GpsPoint :=
  match p with
  | some l => Except.ok l
  | none => Except.error "TypeError: NoneType object is not subscriptable"

/-- `PathCorrector._apply_basic_correction`: ensure a dead reckoner exists
(anchored at the last valid position with zero velocity), then either dead
reckon from raw `heading`/`speed` (confidence 0.7) or hold the last valid
position (confidence 0.3). -/
def apply_basic_correction (st : PathCorrector) (current_point : GpsPoint)
    (imu_data : Option RawImu) : Except String (CorrectedRecord × PathCorrector) := do
  let last ← pyField st.last_valid_position
  let dr : DeadReckoner := match st.dead_reckoner with
    | some d => d
    | none =>
      { current_position := { latitude := last.latitude, longitude := last.longitude },
        current_velocity := 0 }
  let st' := { st with dead_reckoner := some dr }
  let hold : CorrectedRecord :=
    { latitude := last.latitude, longitude := last.longitude,
      timestamp := current_point.timestamp,
      confidence := some 0.3, correction_method := some "position_hold" }
  match imu_data with
  | some imu =>
    match imu.heading, imu.speed with
    | some heading, some speed =>
      let time_delta := current_point.timestamp - last.timestamp
      let distance := speed * time_delta
      let corrected ← compute_next_positionE
          { latitude := last.latitude, longitude := last.longitude } heading distance
      Except.ok
        ({ latitude := corrected.latitude, longitude := corrected.longitude,
           timestamp := current_point.timestamp,
           confidence := some 0.7, correction_method := some "basic_dead_reckoning" }, st')
    | _, _ => Except.ok (hold, st')
  | none => Except.ok (hold, st')

/-- The body of the `try` block of `PathCorrector._apply_imu_correction`:
process the IMU sample, read the elapsed time off the last valid position
(raising when it is `None`), return the held last position on non-positive
elapsed time, otherwise dead reckon with the processed heading and tag the
record `imu_enhanced` with confidence 0.9. -/
def imu_try_block (st : PathCorrector) (handler : IMUHandler) (current_point : GpsPoint)
    (imu_data : RawImu) : Except String (CorrectedRecord × PathCorrector) := do
  let pr := process_imu_data handler imu_data
  let processed_imu := pr.1
  let handler' := pr.2
  let last ← pyField st.last_valid_position
  let time_delta := current_point.timestamp - last.timestamp
  if time_delta ≤ 0 then
    Except.ok
      ({ latitude := last.latitude, longitude := last.longitude,
         timestamp := last.timestamp, confidence := none, correction_method := none },
       { st with imu_handler := some handler' })
  else
    let motion_vector := get_motion_vector handler' processed_imu time_delta
    let dr : DeadReckoner := match st.dead_reckoner with
      | some d => d
      | none =>
        { current_position := { latitude := last.latitude, longitude := last.longitude },
          current_velocity := motion_vector.speed }
    let ur ← updateE dr { acceleration := none, speed := none,
                          heading := processed_imu.heading } time_delta
    Except.ok
      ({ latitude := ur.1.latitude, longitude := ur.1.longitude,
         timestamp := current_point.timestamp,
         confidence := some 0.9, correction_method := some "imu_enhanced" },
       { st with imu_handler := some handler', dead_reckoner := some ur.2 })

/-- `PathCorrector._apply_imu_correction`: guard on handler presence and mode,
run the `try` block, and on any exception degrade to
`_apply_basic_correction`. -/
def apply_imu_correction (st : PathCorrector) (current_point : GpsPoint) (imu_data : RawImu) :
    Except String (CorrectedRecord × PathCorrector) :=
  match st.imu_handler with
  | none => apply_basic_correction st current_point (some imu_data)
  | some handler =>
    if st.use_imu_correction then
      match imu_try_block st handler current_point imu_data with
      | Except.ok res => Except.ok res
      | Except.error _ => apply_basic_correction st current_point (some imu_data)
    else apply_basic_correction st current_point (some imu_data)

/-- `PathCorrector._apply_correction`: dispatch on
`self.use_imu_correction and imu_data`. -/
def apply_correction (st : PathCorrector) (current_point : GpsPoint) (imu_data : Option RawImu) :
    Except String (CorrectedRecord × PathCorrector) :=
  if st.use_imu_correction then
    match imu_data with
    | some imu => apply_imu_correction st current_point imu
    | none => apply_basic_correction st current_point none
  else apply_basic_correction st current_point imu_data

/-- `PathCorrector.correct` from `src/gps_modulator/correction/path_corrector.py`
(the first-fix and not-spoofed branches are byte-identical in
`src/gps_spoofing_detector/correction/path_corrector.py`). -/
def correct (st : PathCorrector) (current_point : GpsPoint) (is_spoofed : Bool)
    (imu_data : Option RawImu) : Except String (CorrectedRecord × PathCorrector) :=
  match st.last_valid_position with
  | none =>
    let lv : GpsPoint :=
      { latitude := current_point.latitude, longitude := current_point.longitude,
        timestamp := current_point.timestamp }
    Except.ok
      ({ latitude := lv.latitude, longitude := lv.longitude, timestamp := lv.timestamp,
         confidence := none, correction_method := none },
       { st with last_valid_position := some lv })
  | some _ =>
    if is_spoofed then apply_correction st current_point imu_data
    else
      let lv : GpsPoint :=
        { latitude := current_point.latitude, longitude := current_point.longitude,
          timestamp := current_point.timestamp }
      Except.ok
        ({ latitude := lv.latitude, longitude := lv.longitude, timestamp := lv.timestamp,
           confidence := none, correction_method := none },
         { st with last_valid_position := some lv })

/-- The fixed method-indexed confidence table of the spec (§3):
`imu_enhanced = 0.9`, `basic_dead_reckoning = 0.7`, `position_hold = 0.3`;
records that carry no method carry no confidence. -/
def confidenceOfMethod : Option String → Option ℝ
  | some "imu_enhanced" => some 0.9
  | some "basic_dead_reckoning" => some 0.7
  | some "position_hold" => some 0.3
  | _ => none

/-- The longitude normalization the source applies:
`((new_lon + 180) % 360) - 180`, whose range is `[-180, 180)`. -/
def wrapLon (x : ℝ) : ℝ := pyMod (x + 180) 360 - 180

/-- Modelled from the spec (§4.4): the spherical direct formula for the next
position, written from the spec's words — angular distance `distance / 6371000`,
`asin` for the new latitude, `atan2` for the new longitude — with the longitude
wrapped by `wrapLon` (the amended normalization into `[-180, 180)`). -/
def spec_next_position (p : Position) (heading distance : ℝ) : Position :=
  let d := distance / 6371000
  let phi := radians p.latitude
  let lam := radians p.longitude
  let theta := radians heading
  let newLat := Real.arcsin (Real.sin phi * Real.cos d +
      Real.cos phi * Real.sin d * Real.cos theta)
  let newLon := lam + atan2 (Real.sin theta * Real.sin d * Real.cos phi)
      (Real.cos d - Real.sin phi * Real.sin newLat)
  { latitude := degrees newLat, longitude := wrapLon (degrees newLon) }

end Core

/-
Helper lemmas.
-/

theorem pyMod_nonneg (x : ℝ) {m : ℝ} (hm : 0 < m) : 0 ≤ pyMod x m := by
  have h1 : (⌊x / m⌋ : ℝ) ≤ x / m := Int.floor_le (x / m)
  have h2 : m * (⌊x / m⌋ : ℝ) ≤ m * (x / m) :=
    mul_le_mul_of_nonneg_left h1 (le_of_lt hm)
  have h3 : m * (x / m) = x := by field_simp
  unfold pyMod
  nlinarith

theorem pyMod_lt (x : ℝ) {m : ℝ} (hm : 0 < m) : pyMod x m < m := by
  have h1 : x / m < (⌊x / m⌋ : ℝ) + 1 := Int.lt_floor_add_one (x / m)
  have h2 : m * (x / m) < m * ((⌊x / m⌋ : ℝ) + 1) := (mul_lt_mul_left hm).mpr h1
  have h3 : m * (x / m) = x := by field_simp
  unfold pyMod
  nlinarith

theorem wrapLon_bounds (x : ℝ) : -180 ≤ Core.wrapLon x ∧ Core.wrapLon x < 180 := by
  unfold Core.wrapLon
  constructor
  · have h := pyMod_nonneg (x + 180) (by norm_num : (0:ℝ) < 360)
    linarith
  · have h := pyMod_lt (x + 180) (by norm_num : (0:ℝ) < 360)
    linarith

/-- The argument handed to `asin` by the spherical direct formula always lies
in `[-1, 1]` in exact real arithmetic, so Python's `math.asin` domain error is
a floating-point artifact. -/
theorem asin_arg_bounds (phi d theta : ℝ) :
    -1 ≤ Real.sin phi * Real.cos d + Real.cos phi * Real.sin d * Real.cos theta ∧
      Real.sin phi * Real.cos d + Real.cos phi * Real.sin d * Real.cos theta ≤ 1 := by
  have h1 : Real.sin phi * Real.cos d + Real.cos phi * Real.sin d ≤ 1 := by
    rw [← Real.sin_add]; exact Real.sin_le_one _
  have h2 : -1 ≤ Real.sin phi * Real.cos d + Real.cos phi * Real.sin d := by
    rw [← Real.sin_add]; exact Real.neg_one_le_sin _
  have h3 : Real.sin phi * Real.cos d - Real.cos phi * Real.sin d ≤ 1 := by
    rw [← Real.sin_sub]; exact Real.sin_le_one _
  have h4 : -1 ≤ Real.sin phi * Real.cos d - Real.cos phi * Real.sin d := by
    rw [← Real.sin_sub]; exact Real.neg_one_le_sin _
  have hc1 : Real.cos theta ≤ 1 := Real.cos_le_one theta
  have hc2 : -1 ≤ Real.cos theta := Real.neg_one_le_cos theta
  constructor
  · nlinarith [mul_nonneg (by linarith : (0:ℝ) ≤ 1 + Real.cos theta)
        (by linarith : (0:ℝ) ≤ 1 + (Real.sin phi * Real.cos d + Real.cos phi * Real.sin d)),
      mul_nonneg (by linarith : (0:ℝ) ≤ 1 - Real.cos theta)
        (by linarith : (0:ℝ) ≤ 1 + (Real.sin phi * Real.cos d - Real.cos phi * Real.sin d))]
  · nlinarith [mul_nonneg (by linarith : (0:ℝ) ≤ 1 + Real.cos theta)
        (by linarith : (0:ℝ) ≤ 1 - (Real.sin phi * Real.cos d + Real.cos phi * Real.sin d)),
      mul_nonneg (by linarith : (0:ℝ) ≤ 1 - Real.cos theta)
        (by linarith : (0:ℝ) ≤ 1 - (Real.sin phi * Real.cos d - Real.cos phi * Real.sin d))]
/-- Claim C7, counterexample: at start position latitude 0, longitude 180,
heading 0 and distance 0, `DeadReckoner.compute_next_position` returns
longitude exactly -180, which lies outside the claimed interval (-180, 180]. -/
theorem compute_next_position_lon_boundary_cex :
    Core.compute_next_positionE { latitude := 0, longitude := 180 } 0 0 =
        Except.ok { latitude := (0:ℝ), longitude := (-180:ℝ) } ∧
      ¬ (-180 < (-180:ℝ) ∧ (-180:ℝ) ≤ 180) := by
  constructor
  · have hX : (180:ℝ) * (Real.pi / 180) * (180 / Real.pi) = 180 := by
      field_simp
    simp only [Core.compute_next_positionE, Core.pyAsin, Core.EARTH_RADIUS, radians, degrees,
      atan2, pyMod]
    norm_num [Real.arcsin_zero, Real.arctan_zero, Bind.bind, Except.bind, hX]
  · norm_num
/-- Claim C7 (amended): for every starting position, heading and distance,
`DeadReckoner.compute_next_position` returns the spherical direct-formula
result of the spec without ever raising the `asin` domain error, and the
returned longitude is normalized into the interval [-180, 180) — not the
claimed (-180, 180]. -/
theorem compute_next_position_spec_formula (p : Position) (heading distance : ℝ) :
    Core.compute_next_positionE p heading distance =
        Except.ok (Core.spec_next_position p heading distance) ∧
      -180 ≤ (Core.spec_next_position p heading distance).longitude ∧
      (Core.spec_next_position p heading distance).longitude < 180 := by
  obtain ⟨hlo, hhi⟩ := asin_arg_bounds (radians p.latitude) (distance / 6371000)
    (radians heading)
  refine ⟨?_, ?_, ?_⟩
  · simp only [Core.compute_next_positionE, Core.pyAsin, Core.spec_next_position, Core.wrapLon,
      Core.EARTH_RADIUS]
    rw [if_neg]
    · simp only [Bind.bind, Except.bind]
    · push_neg
      exact ⟨hlo, hhi⟩
  · simp only [Core.spec_next_position]
    exact (wrapLon_bounds _).1
  · simp only [Core.spec_next_position]
    exact (wrapLon_bounds _).2
/-- Claim C8, counterexample: starting from a freshly constructed handler, feed
two samples with gravity-only acceleration and a north-pointing magnetometer;
the second sample carries gyro_z = -1000 deg/s over dt = 1 s, so the
complementary filter blends heading 0.8 * (0 - 1000) + 0.2 * 0 = -800 and the
window mean of [0, -800] is -400, which the returned IMUData carries although
-400 lies outside [0, 360). -/
theorem processed_heading_leaves_range_cex :
    (Core.process_imu_data
        (Core.process_imu_data
          { previous_imu_data := none, magnetic_declination := 0,
            accel_bias := ⟨0, 0, 0⟩, gyro_bias := ⟨0, 0, 0⟩, mag_bias := ⟨0, 0, 0⟩,
            alpha := 0.8, heading_history := [], max_history := 10 }
          { accel_x := 0, accel_y := 0, accel_z := 1, gyro_x := 0, gyro_y := 0, gyro_z := 0,
            mag_x := 1, mag_y := 0, mag_z := 0, timestamp := 1,
            heading := none, speed := none }).2
        { accel_x := 0, accel_y := 0, accel_z := 1, gyro_x := 0, gyro_y := 0, gyro_z := -1000,
          mag_x := 1, mag_y := 0, mag_z := 0, timestamp := 2,
          heading := none, speed := none }).1.heading = -400 ∧
      ¬ ((0:ℝ) ≤ -400 ∧ (-400:ℝ) < 360) := by
  constructor
  · norm_num [Core.process_imu_data, Core.calculate_attitude, Core.calculate_heading,
      radians, degrees, atan2, pyMod, Real.arctan_zero, Real.sqrt_one]
  · norm_num

/-- Claim C8 (amended): the tilt-compensated magnetometer heading computed by
`EnhancedIMUHandler._calculate_heading` always lies in [0, 360); the heading of
the IMUData record returned by `process_imu_data` can leave that interval once
the complementary-filter blend with the unnormalized gyro-integrated heading
and the sliding-window mean are applied. -/
theorem calculate_heading_range (st : Core.IMUHandler) (mag : Vec3) (pitch roll : ℝ) :
    0 ≤ Core.calculate_heading st mag pitch roll ∧
      Core.calculate_heading st mag pitch roll < 360 := by
  simp only [Core.calculate_heading]
  exact ⟨pyMod_nonneg _ (by norm_num), pyMod_lt _ (by norm_num)⟩
/-- Claim C4: in both implementations, `compute_velocity` returns exactly 0
when the previous fix is absent and when the elapsed time is non-positive,
regardless of spatial separation, and otherwise returns haversine distance
divided by elapsed time. -/
theorem compute_velocity_zero_and_ratio :
    (∀ q : GpsPoint, Flat.compute_velocity none q = 0) ∧
    (∀ p q : GpsPoint, q.timestamp - p.timestamp ≤ 0 → Flat.compute_velocity (some p) q = 0) ∧
    (∀ p q : GpsPoint, 0 < q.timestamp - p.timestamp →
      Flat.compute_velocity (some p) q =
        Flat.haversine p.latitude p.longitude q.latitude q.longitude /
          (q.timestamp - p.timestamp)) ∧
    (∀ q : GpsPoint, Core.compute_velocity none q = 0) ∧
    (∀ p q : GpsPoint, q.timestamp - p.timestamp ≤ 0 → Core.compute_velocity (some p) q = 0) ∧
    (∀ p q : GpsPoint, 0 < q.timestamp - p.timestamp →
      Core.compute_velocity (some p) q =
        Core.haversine_distance p.latitude p.longitude q.latitude q.longitude /
          (q.timestamp - p.timestamp)) := by
  refine ⟨fun q => rfl, fun p q h => ?_, fun p q h => ?_,
    fun q => rfl, fun p q h => ?_, fun p q h => ?_⟩
  · simp only [Flat.compute_velocity, if_pos h]
  · simp only [Flat.compute_velocity, if_neg (not_le.mpr h)]
  · simp only [Core.compute_velocity, if_pos h]
  · simp only [Core.compute_velocity, if_neg (not_le.mpr h)]

/-- Witness for C4: an absent previous fix, a pair of fixes one degree apart
with zero elapsed time, and a pair five seconds apart. -/
theorem compute_velocity_zero_and_ratio_witness :
    Flat.compute_velocity none ⟨10, 20, 5⟩ = 0 ∧
    Flat.compute_velocity (some ⟨10, 20, 1000⟩) ⟨11, 21, 1000⟩ = 0 ∧
    Flat.compute_velocity (some ⟨10, 20, 1000⟩) ⟨11, 21, 1005⟩ =
      Flat.haversine 10 20 11 21 / 5 ∧
    Core.compute_velocity none ⟨10, 20, 5⟩ = 0 ∧
    Core.compute_velocity (some ⟨10, 20, 1000⟩) ⟨11, 21, 1000⟩ = 0 ∧
    Core.compute_velocity (some ⟨10, 20, 1000⟩) ⟨11, 21, 1005⟩ =
      Core.haversine_distance 10 20 11 21 / 5 := by
  obtain ⟨h1, h2, h3, h4, h5, h6⟩ := compute_velocity_zero_and_ratio
  refine ⟨h1 _, h2 _ _ (by norm_num), ?_, h4 _, h5 _ _ (by norm_num), ?_⟩
  · have h := h3 ⟨10, 20, 1000⟩ ⟨11, 21, 1005⟩ (by norm_num)
    norm_num at h
    exact h
  · have h := h6 ⟨10, 20, 1000⟩ ⟨11, 21, 1005⟩ (by norm_num)
    norm_num at h
    exact h

/-- Claim C3: both detector implementations return false on the first call
(storing the fix as the previous one), and on every later call return true
exactly when the computed velocity exceeds the threshold, storing the current
fix as the new previous fix unconditionally. -/
theorem detect_first_false_then_threshold :
    (∀ (d : Flat.VelocityAnomalyDetector) (c : GpsPoint), d.previous_point = none →
      d.detect c = (false, { d with previous_point := some c })) ∧
    (∀ (d : Flat.VelocityAnomalyDetector) (p c : GpsPoint), d.previous_point = some p →
      ((d.detect c).1 = true ↔ Flat.compute_velocity (some p) c > d.threshold_velocity) ∧
        (d.detect c).2 = { d with previous_point := some c }) ∧
    (∀ (d : Core.VelocityAnomalyDetector) (c : GpsPoint), d.previous_point = none →
      d.detect c = (false, { d with previous_point := some c })) ∧
    (∀ (d : Core.VelocityAnomalyDetector) (p c : GpsPoint), d.previous_point = some p →
      ((d.detect c).1 = true ↔ Core.compute_velocity (some p) c > d.threshold_velocity) ∧
        (d.detect c).2 = { d with previous_point := some c }) := by
  refine ⟨?_, ?_, ?_, ?_⟩
  · rintro ⟨t, prev⟩ c h
    simp only at h
    subst h
    simp [Flat.VelocityAnomalyDetector.detect]
  · rintro ⟨t, prev⟩ p c h
    simp only at h
    subst h
    by_cases hv : Flat.compute_velocity (some p) c > t
    · simp [Flat.VelocityAnomalyDetector.detect, hv]
    · simp [Flat.VelocityAnomalyDetector.detect, hv]
  · rintro ⟨t, prev⟩ c h
    simp only at h
    subst h
    simp [Core.VelocityAnomalyDetector.detect]
  · rintro ⟨t, prev⟩ p c h
    simp only at h
    subst h
    by_cases hv : Core.compute_velocity (some p) c > t
    · simp [Core.VelocityAnomalyDetector.detect, hv]
    · simp [Core.VelocityAnomalyDetector.detect, hv]

/-- Witness for C3: a fresh detector accepts the first fix; with a retained
previous fix the verdict matches the threshold comparison (here evaluated:
equal timestamps give velocity 0, so no anomaly at threshold 30), and the
current fix is stored in both cases. -/
theorem detect_first_false_then_threshold_witness :
    Flat.VelocityAnomalyDetector.detect ⟨30, none⟩ ⟨10, 20, 1000⟩ =
        (false, ⟨30, some ⟨10, 20, 1000⟩⟩) ∧
    ((Flat.VelocityAnomalyDetector.detect ⟨30, some ⟨10, 20, 1000⟩⟩ ⟨11, 21, 1000⟩).1 = true ↔
        Flat.compute_velocity (some ⟨10, 20, 1000⟩) ⟨11, 21, 1000⟩ > 30) ∧
    (Flat.VelocityAnomalyDetector.detect ⟨30, some ⟨10, 20, 1000⟩⟩ ⟨11, 21, 1000⟩).2 =
        ⟨30, some ⟨11, 21, 1000⟩⟩ ∧
    (Flat.VelocityAnomalyDetector.detect ⟨30, some ⟨10, 20, 1000⟩⟩ ⟨11, 21, 1000⟩).1 = false ∧
    Core.VelocityAnomalyDetector.detect ⟨30, none⟩ ⟨10, 20, 1000⟩ =
        (false, ⟨30, some ⟨10, 20, 1000⟩⟩) ∧
    ((Core.VelocityAnomalyDetector.detect ⟨30, some ⟨10, 20, 1000⟩⟩ ⟨11, 21, 1000⟩).1 = true ↔
        Core.compute_velocity (some ⟨10, 20, 1000⟩) ⟨11, 21, 1000⟩ > 30) ∧
    (Core.VelocityAnomalyDetector.detect ⟨30, some ⟨10, 20, 1000⟩⟩ ⟨11, 21, 1000⟩).2 =
        ⟨30, some ⟨11, 21, 1000⟩⟩ := by
  obtain ⟨h1, h2, h3, h4⟩ := detect_first_false_then_threshold
  refine ⟨h1 _ _ rfl, (h2 ⟨30, some ⟨10, 20, 1000⟩⟩ ⟨10, 20, 1000⟩ _ rfl).1,
    (h2 ⟨30, some ⟨10, 20, 1000⟩⟩ ⟨10, 20, 1000⟩ _ rfl).2, ?_,
    h3 _ _ rfl, (h4 ⟨30, some ⟨10, 20, 1000⟩⟩ ⟨10, 20, 1000⟩ _ rfl).1,
    (h4 ⟨30, some ⟨10, 20, 1000⟩⟩ ⟨10, 20, 1000⟩ _ rfl).2⟩
  simp [Flat.VelocityAnomalyDetector.detect, Flat.compute_velocity]
/-- Claim C5: `PathCorrector.correct` returns the input's latitude, longitude
and timestamp exactly, and stores the fix as the new last valid position, for
every fix passed with is_spoofed = false and for the first fix ever seen
regardless of the flag. -/
theorem correct_accepts_valid_fix_verbatim (st : Core.PathCorrector) (pt : GpsPoint)
    (flag : Bool) (imu : Option Core.RawImu)
    (h : st.last_valid_position = none ∨ flag = false) :
    ∃ r st', Core.correct st pt flag imu = Except.ok (r, st') ∧
      r.latitude = pt.latitude ∧ r.longitude = pt.longitude ∧ r.timestamp = pt.timestamp ∧
      st'.last_valid_position = some ⟨pt.latitude, pt.longitude, pt.timestamp⟩ := by
  rcases h with h | h
  · exact ⟨⟨pt.latitude, pt.longitude, pt.timestamp, none, none⟩,
      { st with last_valid_position := some ⟨pt.latitude, pt.longitude, pt.timestamp⟩ },
      by simp only [Core.correct, h], rfl, rfl, rfl, rfl⟩
  · cases hl : st.last_valid_position with
    | none =>
      exact ⟨⟨pt.latitude, pt.longitude, pt.timestamp, none, none⟩,
        { st with last_valid_position := some ⟨pt.latitude, pt.longitude, pt.timestamp⟩ },
        by simp only [Core.correct, hl], rfl, rfl, rfl, rfl⟩
    | some l =>
      exact ⟨⟨pt.latitude, pt.longitude, pt.timestamp, none, none⟩,
        { st with last_valid_position := some ⟨pt.latitude, pt.longitude, pt.timestamp⟩ },
        by simp only [Core.correct, hl, h, Bool.false_eq_true, if_false], rfl, rfl, rfl, rfl⟩

/-- Witness for C5: a fresh corrector accepts the first fix even with the
spoofed flag set, and a corrector with a retained last position accepts a
non-spoofed fix; both return the input coordinates verbatim. -/
theorem correct_accepts_valid_fix_verbatim_witness :
    (∃ r st', Core.correct ⟨none, none, none, false⟩ ⟨10, 20, 30⟩ true none =
        Except.ok (r, st') ∧
      r.latitude = (10:ℝ) ∧ r.longitude = (20:ℝ) ∧ r.timestamp = (30:ℝ) ∧
      st'.last_valid_position = some ⟨10, 20, 30⟩) ∧
    (∃ r st', Core.correct ⟨some ⟨1, 2, 3⟩, none, none, false⟩ ⟨10, 20, 30⟩ false none =
        Except.ok (r, st') ∧
      r.latitude = (10:ℝ) ∧ r.longitude = (20:ℝ) ∧ r.timestamp = (30:ℝ) ∧
      st'.last_valid_position = some ⟨10, 20, 30⟩) :=
  ⟨correct_accepts_valid_fix_verbatim _ _ _ _ (Or.inl rfl),
   correct_accepts_valid_fix_verbatim _ _ _ _ (Or.inr rfl)⟩
theorem apply_basic_confidence (st : Core.PathCorrector) (pt : GpsPoint)
    (imu : Option Core.RawImu) (r : Core.CorrectedRecord) (st' : Core.PathCorrector)
    (h : Core.apply_basic_correction st pt imu = Except.ok (r, st')) :
    r.confidence = Core.confidenceOfMethod r.correction_method := by
  cases hl : st.last_valid_position with
  | none =>
    rw [Core.apply_basic_correction] at h
    simp only [hl, Core.pyField, Bind.bind, Except.bind] at h
    exact Except.noConfusion h
  | some l =>
    rw [Core.apply_basic_correction] at h
    simp only [hl, Core.pyField, Bind.bind, Except.bind] at h
    cases imu with
    | none =>
      simp only [Except.ok.injEq, Prod.mk.injEq] at h
      rw [← h.1]
      simp [Core.confidenceOfMethod]
    | some im =>
      cases hh : im.heading with
      | none =>
        simp only [hh, Except.ok.injEq, Prod.mk.injEq] at h
        rw [← h.1]
        simp [Core.confidenceOfMethod]
      | some heading =>
        cases hs : im.speed with
        | none =>
          simp only [hh, hs, Except.ok.injEq, Prod.mk.injEq] at h
          rw [← h.1]
          simp [Core.confidenceOfMethod]
        | some speed =>
          simp only [hh, hs] at h
          cases hc : Core.compute_next_positionE
              { latitude := l.latitude, longitude := l.longitude } heading
              (speed * (pt.timestamp - l.timestamp)) with
          | error e => rw [hc] at h; simp [Except.bind] at h
          | ok pos =>
            rw [hc] at h
            simp only [Except.bind, Except.ok.injEq, Prod.mk.injEq] at h
            rw [← h.1]
            simp [Core.confidenceOfMethod]
theorem imu_try_block_confidence (st : Core.PathCorrector) (handler : Core.IMUHandler)
    (pt : GpsPoint) (imu : Core.RawImu) (r : Core.CorrectedRecord) (st' : Core.PathCorrector)
    (h : Core.imu_try_block st handler pt imu = Except.ok (r, st')) :
    r.confidence = Core.confidenceOfMethod r.correction_method := by
  cases hl : st.last_valid_position with
  | none =>
    rw [Core.imu_try_block] at h
    simp only [hl, Core.pyField, Bind.bind, Except.bind] at h
    exact Except.noConfusion h
  | some l =>
    rw [Core.imu_try_block] at h
    simp only [hl, Core.pyField, Bind.bind, Except.bind] at h
    by_cases ht : pt.timestamp - l.timestamp ≤ 0
    · rw [if_pos ht] at h
      simp only [Except.ok.injEq, Prod.mk.injEq] at h
      rw [← h.1]
      simp [Core.confidenceOfMethod]
    · rw [if_neg ht] at h
      split at h
      · exact Except.noConfusion h
      · simp only [Except.ok.injEq, Prod.mk.injEq] at h
        rw [← h.1]
        simp [Core.confidenceOfMethod]

theorem apply_imu_confidence (st : Core.PathCorrector) (pt : GpsPoint) (imu : Core.RawImu)
    (r : Core.CorrectedRecord) (st' : Core.PathCorrector)
    (h : Core.apply_imu_correction st pt imu = Except.ok (r, st')) :
    r.confidence = Core.confidenceOfMethod r.correction_method := by
  cases hh : st.imu_handler with
  | none =>
    rw [Core.apply_imu_correction, hh] at h
    exact apply_basic_confidence _ _ _ _ _ h
  | some handler =>
    rw [Core.apply_imu_correction, hh] at h
    by_cases hu : st.use_imu_correction = true
    · simp only [hu, if_true] at h
      split at h
      case _ res heq =>
        simp only [Except.ok.injEq] at h
        rw [h] at heq
        exact imu_try_block_confidence _ _ _ _ _ _ heq
      case _ e heq =>
        exact apply_basic_confidence _ _ _ _ _ h
    · simp only [hu, Bool.false_eq_true, if_false] at h
      exact apply_basic_confidence _ _ _ _ _ h
/-- Claim C9: every record produced by the spoofed-fix dispatch
`PathCorrector._apply_correction` carries exactly the fixed confidence
constant indexed by its correction method (imu_enhanced 0.9,
basic_dead_reckoning 0.7, position_hold 0.3; records without a method carry no
confidence), and the constants are ordered 0.9 > 0.7 > 0.3. -/
theorem confidence_indexed_by_method :
    (∀ (st : Core.PathCorrector) (pt : GpsPoint) (imu : Option Core.RawImu)
        (r : Core.CorrectedRecord) (st' : Core.PathCorrector),
      Core.apply_correction st pt imu = Except.ok (r, st') →
        r.confidence = Core.confidenceOfMethod r.correction_method) ∧
    Core.confidenceOfMethod (some "imu_enhanced") = some 0.9 ∧
    Core.confidenceOfMethod (some "basic_dead_reckoning") = some 0.7 ∧
    Core.confidenceOfMethod (some "position_hold") = some 0.3 ∧
    (0.3:ℝ) < 0.7 ∧ (0.7:ℝ) < 0.9 := by
  refine ⟨?_, rfl, rfl, rfl, by norm_num, by norm_num⟩
  intro st pt imu r st' h
  rw [Core.apply_correction.eq_def] at h
  by_cases hu : st.use_imu_correction = true
  · simp only [hu, if_true] at h
    cases imu with
    | some im => exact apply_imu_confidence _ _ _ _ _ h
    | none => exact apply_basic_confidence _ _ _ _ _ h
  · simp only [hu, Bool.false_eq_true, if_false] at h
    exact apply_basic_confidence _ _ _ _ _ h

/-- Witness for C9: a corrector with a retained last position, no IMU sample
and IMU mode off produces the position-hold record with confidence 0.3, which
matches the method-indexed table. -/
theorem confidence_indexed_by_method_witness :
    (⟨1, 2, 30, some 0.3, some "position_hold"⟩ : Core.CorrectedRecord).confidence =
      Core.confidenceOfMethod
        (⟨1, 2, 30, some 0.3, some "position_hold"⟩ : Core.CorrectedRecord).correction_method :=
  confidence_indexed_by_method.1 ⟨some ⟨1, 2, 3⟩, none, none, false⟩ ⟨10, 20, 30⟩ none _
    ⟨some ⟨1, 2, 3⟩, some ⟨⟨1, 2⟩, 0⟩, none, false⟩
    (by simp [Core.apply_correction, Core.apply_basic_correction, Core.pyField,
      Bind.bind, Except.bind])
/-- Claim C10: `FallbackManager.handle_fallback` called while already Active
returns None and leaves the active flag, the stored last position and the
internal dead reckoner unchanged; only a call made while Inactive creates a
DeadReckoner anchored at the given position with the IMU velocity, runs
exactly one update, returns its position, and activates the manager. -/
theorem handle_fallback_noop_when_active :
    (∀ (m : Flat.FallbackManager) (p : Position) (imu : Flat.ImuMsg) (dt : ℝ),
      m.fallback_active = true → Flat.handle_fallback m p imu dt = (none, m)) ∧
    (∀ (m : Flat.FallbackManager) (p : Position) (imu : Flat.ImuMsg) (dt : ℝ),
      m.fallback_active = false →
        Flat.handle_fallback m p imu dt =
          (some (Flat.DeadReckoner.update ⟨p, imu.velocity.getD 0⟩ imu dt).1,
           { fallback_active := true, last_position := some p,
             reckoner := some (Flat.DeadReckoner.update ⟨p, imu.velocity.getD 0⟩ imu dt).2 })) := by
  constructor
  · intro m p imu dt h
    simp only [Flat.handle_fallback, h, if_true]
  · intro m p imu dt h
    simp only [Flat.handle_fallback, h, Bool.false_eq_true, if_false]

/-- Witness for C10: a manager already in the Active state with a stored last
position and reckoner is returned untouched together with None; a fresh
Inactive manager returns the one-step dead-reckoned estimate and activates. -/
theorem handle_fallback_noop_when_active_witness :
    Flat.handle_fallback ⟨true, some ⟨1, 2⟩, some ⟨⟨1, 2⟩, 5⟩⟩ ⟨3, 4⟩ ⟨none, none, 90⟩ 1 =
        (none, ⟨true, some ⟨1, 2⟩, some ⟨⟨1, 2⟩, 5⟩⟩) ∧
    Flat.handle_fallback ⟨false, none, none⟩ ⟨3, 4⟩ ⟨none, none, 90⟩ 1 =
        (some (Flat.DeadReckoner.update ⟨⟨3, 4⟩, (none : Option ℝ).getD 0⟩ ⟨none, none, 90⟩ 1).1,
         ⟨true, some ⟨3, 4⟩,
          some (Flat.DeadReckoner.update ⟨⟨3, 4⟩, (none : Option ℝ).getD 0⟩ ⟨none, none, 90⟩ 1).2⟩) :=
  ⟨handle_fallback_noop_when_active.1 _ _ _ _ rfl,
   handle_fallback_noop_when_active.2 _ _ _ _ rfl⟩

/-- Claim C6: whenever the body of the try block of
`PathCorrector._apply_imu_correction` raises (an `Except.error` of the
IMU-processing / dead-reckoning pipeline), the exception is caught inside the
corrector and the call returns exactly the result of the
basic-dead-reckoning / position-hold path `_apply_basic_correction`; the
try-block error is never propagated. -/
theorem imu_exception_degrades_to_basic (st : Core.PathCorrector)
    (handler : Core.IMUHandler) (pt : GpsPoint) (imu : Core.RawImu) (e : String)
    (hh : st.imu_handler = some handler) (hu : st.use_imu_correction = true)
    (he : Core.imu_try_block st handler pt imu = Except.error e) :
    Core.apply_imu_correction st pt imu = Core.apply_basic_correction st pt (some imu) := by
  rw [Core.apply_imu_correction, hh]
  simp only [hu, if_true, he]

/-- Witness for C6: with IMU correction enabled but no last valid position
retained, the try block raises the subscript TypeError, and the call indeed
returns the basic-correction result. -/
theorem imu_exception_degrades_to_basic_witness :
    Core.imu_try_block ⟨none, none, some ⟨none, 0, ⟨0, 0, 0⟩, ⟨0, 0, 0⟩, ⟨0, 0, 0⟩, 0.8, [], 10⟩, true⟩
        ⟨none, 0, ⟨0, 0, 0⟩, ⟨0, 0, 0⟩, ⟨0, 0, 0⟩, 0.8, [], 10⟩ ⟨10, 20, 30⟩
        ⟨0, 0, 1, 0, 0, 0, 1, 0, 0, 1, none, none⟩ =
      Except.error "TypeError: NoneType object is not subscriptable" ∧
    Core.apply_imu_correction
        ⟨none, none, some ⟨none, 0, ⟨0, 0, 0⟩, ⟨0, 0, 0⟩, ⟨0, 0, 0⟩, 0.8, [], 10⟩, true⟩
        ⟨10, 20, 30⟩ ⟨0, 0, 1, 0, 0, 0, 1, 0, 0, 1, none, none⟩ =
      Core.apply_basic_correction
        ⟨none, none, some ⟨none, 0, ⟨0, 0, 0⟩, ⟨0, 0, 0⟩, ⟨0, 0, 0⟩, 0.8, [], 10⟩, true⟩
        ⟨10, 20, 30⟩ (some ⟨0, 0, 1, 0, 0, 0, 1, 0, 0, 1, none, none⟩) := by
  have he : Core.imu_try_block
      ⟨none, none, some ⟨none, 0, ⟨0, 0, 0⟩, ⟨0, 0, 0⟩, ⟨0, 0, 0⟩, 0.8, [], 10⟩, true⟩
      ⟨none, 0, ⟨0, 0, 0⟩, ⟨0, 0, 0⟩, ⟨0, 0, 0⟩, 0.8, [], 10⟩ ⟨10, 20, 30⟩
      ⟨0, 0, 1, 0, 0, 0, 1, 0, 0, 1, none, none⟩ =
      Except.error "TypeError: NoneType object is not subscriptable" := by
    simp [Core.imu_try_block, Core.pyField, Bind.bind, Except.bind]
  exact ⟨he, imu_exception_degrades_to_basic _ _ _ _ _ rfl rfl he⟩
/-- Claim C1, code-bug evidence: on a fresh engine the detection pipeline
reports no anomaly for the very first fix, yet `validate` still takes the
fallback branch — the source binds the dict returned by `process_gps_point`
(always truthy) to `is_spoofed` — so it returns is_spoofed = true with
source "fallback" and leaves the engine's last GPS point unset, instead of
accepting the fix verbatim with is_spoofed = false and source "gnss". -/
theorem validate_spoofed_branch_always_taken :
    (Flat.process_gps_point ⟨⟨50, none⟩⟩ ⟨37.7749, -122.4194, 1000⟩).1.velocity_anomaly =
        false ∧
    (Flat.validate ⟨⟨⟨50, none⟩⟩, ⟨false, none, none⟩, none⟩ ⟨37.7749, -122.4194, 1000⟩
        ⟨none, none, 0⟩).toOption.map
        (fun x => (x.1.is_spoofed, x.1.source, x.2.last_gps_point)) =
      some (true, "fallback", none) := by
  constructor
  · rfl
  · simp [Flat.validate, Flat.process_gps_point, Flat.VelocityAnomalyDetector.detect,
      Flat.pipelineResultTruthy, Flat.handle_fallback, Except.toOption]

/-- Claim C2, code-bug evidence: with threshold -1 the second fix is reported
anomalous by the detector, yet chaining two `validate` calls on well-formed
fixes and IMU samples raises: the first call activates the fallback manager,
the second receives None from `handle_fallback` (already active) and
subscripts it, so `validate` propagates a TypeError instead of returning a
corrected record. -/
theorem validate_raises_on_second_fix :
    (Flat.VelocityAnomalyDetector.detect ⟨-1, some ⟨37.7749, -122.4194, 1000⟩⟩
        ⟨37.7849, -122.4094, 1000⟩).1 = true ∧
    ((Flat.validate ⟨⟨⟨-1, none⟩⟩, ⟨false, none, none⟩, none⟩ ⟨37.7749, -122.4194, 1000⟩
          ⟨none, none, 0⟩).bind
        (fun x => Flat.validate x.2 ⟨37.7849, -122.4094, 1000⟩ ⟨none, none, 0⟩)) =
      Except.error "TypeError: NoneType object is not subscriptable" := by
  constructor
  · norm_num [Flat.VelocityAnomalyDetector.detect, Flat.compute_velocity]
  · simp [Flat.validate, Flat.process_gps_point, Flat.VelocityAnomalyDetector.detect,
      Flat.pipelineResultTruthy, Flat.handle_fallback, Except.bind]
